import Mathlib

/-!
Verification of the mina-rs signed-command subsystem: canonical encoding of
signed-command payloads, network domain separation, signing and verification,
and the protocol version baseline.  Definitions are a shallow embedding of
src/base/src/user_commands/signed_command/mod.rs and
src/base/src/protocol_version.rs; collaborator types that live outside the
sources (the key/curve primitive, the random-oracle input accumulator, the
payment body and memo types) are modelled from the specification and marked
as such in their doc comments.
-/

namespace MinaRs

/-- Modelled from the spec: the external key/curve primitive represents a
compressed public key as an x-coordinate field element together with the
parity bit of the y-coordinate.  The field element is modelled abstractly as
a natural number. -/
structure CompressedPubKey where
  x : Nat
  is_odd : Bool
deriving DecidableEq, Repr

/-- Modelled from the spec: an uncompressed public key of the external
primitive.  The spec assumes point compression and the address round trip are
lossless for valid keys, so a public key is modelled by its compressed
representation. -/
abbrev PubKey := CompressedPubKey

/-- Modelled from the spec: point compression of the external primitive.
Since PubKey is modelled by its compressed representation this is the
identity. -/
def PubKey.into_compressed (pk : PubKey) : CompressedPubKey := pk

/-- Modelled from the spec: a keypair of the external primitive.  The secret
scalar is abstract; only the public key is observable at this layer. -/
structure Keypair where
  sec : Nat
  public : PubKey
deriving DecidableEq, Repr

/-- Modelled from the spec: the network identifier consumed by the external
signer, with exactly the two constructors used by the sources. -/
inductive NetworkId where
  | TESTNET
  | MAINNET
deriving DecidableEq, Repr

/-- Modelled from the spec: one item of the canonical encoding, an
EncodedItem of the ordered sequence produced by the encoder: a field element,
a 32-bit integer, a 64-bit integer, a single bit, or a byte string. -/
inductive ROItem where
  | field (x : Nat)
  | u32 (n : Nat)
  | u64 (n : Nat)
  | bool (b : Bool)
  | bytes (bs : List Nat)
deriving DecidableEq, Repr

/-- Modelled from the spec: the random-oracle input accumulator of the
external hasher, abstracted as the ordered sequence of items appended to
it. -/
structure ROInput where
  items : List ROItem
deriving DecidableEq, Repr

/-- Modelled from the spec: a fresh, empty random-oracle input. -/
def ROInput.new : ROInput := ⟨[]⟩

/-- Modelled from the spec: append a field element to the sequence. -/
def ROInput.append_field (roi : ROInput) (x : Nat) : ROInput :=
  ⟨roi.items ++ [ROItem.field x]⟩

/-- Modelled from the spec: append a 32-bit integer to the sequence. -/
def ROInput.append_u32 (roi : ROInput) (n : Nat) : ROInput :=
  ⟨roi.items ++ [ROItem.u32 n]⟩

/-- Modelled from the spec: append a 64-bit integer to the sequence. -/
def ROInput.append_u64 (roi : ROInput) (n : Nat) : ROInput :=
  ⟨roi.items ++ [ROItem.u64 n]⟩

/-- Modelled from the spec: append a single bit to the sequence. -/
def ROInput.append_bool (roi : ROInput) (b : Bool) : ROInput :=
  ⟨roi.items ++ [ROItem.bool b]⟩

/-- Modelled from the spec: append a byte string to the sequence. -/
def ROInput.append_bytes (roi : ROInput) (bs : List Nat) : ROInput :=
  ⟨roi.items ++ [ROItem.bytes bs]⟩

/-- Modelled from the spec: Amount is an unsigned 64-bit wrapper from the
numbers module absent from the sources; modelled as a natural number. -/
abbrev Amount := Nat

/-- Modelled from the spec: TokenId is an unsigned 64-bit wrapper from the
numbers module absent from the sources; modelled as a natural number. -/
abbrev TokenId := Nat

/-- Modelled from the spec: AccountNonce is an unsigned 32-bit wrapper from
the numbers module absent from the sources; modelled as a natural number. -/
abbrev AccountNonce := Nat

/-- Modelled from the spec: GlobalSlotNumber is an unsigned 32-bit wrapper
from the numbers module absent from the sources; modelled as a natural
number. -/
abbrev GlobalSlotNumber := Nat

/-- Modelled from the spec: SignedCommandMemo from the memo module absent
from the sources is a fixed-capacity byte buffer; the encoder only reads its
raw bytes, modelled as a list of naturals. -/
abbrev SignedCommandMemo := List Nat

/-- Modelled from the spec: PaymentPayload from the payment module absent
from the sources, with the fields the encoder reads: source key, receiver
key, token id and amount. -/
structure PaymentPayload where
  source_pk : CompressedPubKey
  receiver_pk : CompressedPubKey
  token_id : TokenId
  amount : Amount
deriving DecidableEq, Repr

/-- Stake delegation body variants (src mod.rs). -/
inductive StakeDelegation where
  | SetDelegate (delegator : CompressedPubKey) (new_delegate : CompressedPubKey)
deriving DecidableEq, Repr

/-- Enum of variable fields in a signed command (src mod.rs). -/
inductive SignedCommandPayloadBody where
  | PaymentPayload (pp : PaymentPayload)
  | StakeDelegation (s : StakeDelegation)
deriving DecidableEq, Repr

/-- Common fields required by all signed commands (src mod.rs). -/
structure SignedCommandPayloadCommon where
  fee : Amount
  fee_token : TokenId
  fee_payer_pk : CompressedPubKey
  nonce : AccountNonce
  valid_until : GlobalSlotNumber
  memo : SignedCommandMemo
deriving DecidableEq, Repr

/-- The part of a signed command that is serialized and signed (src mod.rs). -/
structure SignedCommandPayload where
  common : SignedCommandPayloadCommon
  body : SignedCommandPayloadBody
deriving DecidableEq, Repr

/-- Number of variant tag bits (src mod.rs, TAG_BITS). -/
def TAG_BITS : Nat := 3

/-- The payment transaction tag bits (src mod.rs, PAYMENT_TX_TAG). -/
def PAYMENT_TX_TAG : List Bool := [false, false, false]

/-- The delegation transaction tag bits (src mod.rs, DELEGATION_TX_TAG). -/
def DELEGATION_TX_TAG : List Bool := [false, false, true]

/-- Canonical encoding of a payload into the random-oracle input sequence,
the Hashable to_roinput implementation (src mod.rs). -/
def SignedCommandPayload.to_roinput (self : SignedCommandPayload) : ROInput :=
  let roi := ROInput.new
  match self.body with
  | SignedCommandPayloadBody.PaymentPayload pp =>
      let roi :=
        ((((((((roi.append_field self.common.fee_payer_pk.x).append_field
          pp.source_pk.x).append_field pp.receiver_pk.x).append_u64
          self.common.fee).append_u64 self.common.fee_token).append_bool
          self.common.fee_payer_pk.is_odd).append_u32
          self.common.nonce).append_u32 self.common.valid_until).append_bytes
          self.common.memo
      let roi := PAYMENT_TX_TAG.foldl (fun r tag_bit => r.append_bool tag_bit) roi
      ((((roi.append_bool pp.source_pk.is_odd).append_bool
        pp.receiver_pk.is_odd).append_u64 pp.token_id).append_u64
        pp.amount).append_bool false
  | SignedCommandPayloadBody.StakeDelegation s =>
      match s with
      | StakeDelegation.SetDelegate delegator new_delegate =>
          let roi :=
            ((((((((roi.append_field self.common.fee_payer_pk.x).append_field
              delegator.x).append_field new_delegate.x).append_u64
              self.common.fee).append_u64 self.common.fee_token).append_bool
              self.common.fee_payer_pk.is_odd).append_u32
              self.common.nonce).append_u32
              self.common.valid_until).append_bytes self.common.memo
          let roi := DELEGATION_TX_TAG.foldl (fun r tag_bit => r.append_bool tag_bit) roi
          ((((roi.append_bool delegator.is_odd).append_bool
            new_delegate.is_odd).append_u64 1).append_u64 0).append_bool false

/-- Domain string lookup for the signature context, the Hashable
domain_string implementation (src mod.rs). -/
def SignedCommandPayload.domain_string (network_id : NetworkId) : Option String :=
  some (match network_id with
  | NetworkId.MAINNET => "MinaSignatureMainnet"
  | NetworkId.TESTNET => "CodaSignature")

/-- Modelled from the spec: a signature object of the external legacy
signature primitive.  The primitive is idealized: a signature determines
exactly the domain string, encoded input and public key it was produced for,
and verification succeeds exactly on that triple. -/
structure Signature where
  domain : Option String
  input : ROInput
  pk : PubKey
deriving DecidableEq, Repr

/-- Modelled from the spec: the signing and verification context of the
external primitive for the single legacy scheme variant, keyed by the
network identifier whose domain string scopes the transform. -/
structure Context where
  network : NetworkId
deriving DecidableEq, Repr

/-- Modelled from the spec: context constructor for the legacy scheme
variant, mirroring mina_signer create_legacy. -/
def create_legacy (network : NetworkId) : Context := ⟨network⟩

/-- Modelled from the spec: the external primitive signs the canonical
encoding of the payload under the domain of the context with the keypair,
producing a signature bound to that domain, that encoding and the public
key of the keypair. -/
def Context.sign (ctx : Context) (kp : Keypair) (payload : SignedCommandPayload) : Signature :=
  ⟨SignedCommandPayload.domain_string ctx.network, payload.to_roinput, kp.public⟩

/-- Modelled from the spec: the external primitive verifies a signature
against a public key and the canonical encoding of a payload under the
domain of the context, returning a boolean. -/
def Context.verify (ctx : Context) (sig : Signature) (pubkey : PubKey)
    (payload : SignedCommandPayload) : Bool :=
  sig == ⟨SignedCommandPayload.domain_string ctx.network, payload.to_roinput, pubkey⟩

/-- Modelled from the spec: the address round trip performed inside verify
(into_address then from_address), assumed lossless for keys that originated
from a valid address, hence the identity on the compressed representation. -/
def address_roundtrip (pk : CompressedPubKey) : PubKey := pk

/-- Top level signed command type (src mod.rs). -/
structure SignedCommand where
  payload : SignedCommandPayload
  signer : CompressedPubKey
  signature : Signature
deriving DecidableEq, Repr

/-- Sign a SignedCommandPayload to construct a SignedCommand
(src mod.rs, SignedCommand::from_payload). -/
def SignedCommand.from_payload (payload : SignedCommandPayload) (keypair : Keypair)
    (network : NetworkId) : SignedCommand :=
  let ctx := create_legacy network
  let signature := ctx.sign keypair payload
  { payload := payload
    signer := PubKey.into_compressed keypair.public
    signature := signature }

/-- Verifiable implementation for SignedCommand (src mod.rs): recover the
uncompressed signer key through the address round trip and delegate to the
context verifier. -/
def SignedCommand.verify (self : SignedCommand) (ctx : Context) : Bool :=
  let signer_uncompressed := address_roundtrip self.signer
  ctx.verify self.signature signer_uncompressed self.payload

/-- Convert into a signed command by signing with the given keypair and
network ID (src mod.rs, into_signed_command). -/
def SignedCommandPayload.into_signed_command (self : SignedCommandPayload)
    (keypair : Keypair) (network : NetworkId) : SignedCommand :=
  SignedCommand.from_payload self keypair network

/-- Defines a version of the Mina protocol in semver format
(src protocol_version.rs). -/
structure ProtocolVersion where
  major : Nat
  minor : Nat
  patch : Nat
deriving DecidableEq, Repr

/-- The Default implementation for ProtocolVersion (src protocol_version.rs). -/
instance : Inhabited ProtocolVersion :=
  ⟨{ major := 2, minor := 0, patch := 0 }⟩

/-! Concrete sample values used by witness theorems. -/

/-- A sample compressed public key. -/
def examplePubKeyA : CompressedPubKey := ⟨5, true⟩

/-- A second sample compressed public key. -/
def examplePubKeyB : CompressedPubKey := ⟨7, false⟩

/-- A third sample compressed public key. -/
def examplePubKeyC : CompressedPubKey := ⟨11, true⟩

/-- Sample common fields for a signed command payload. -/
def exampleCommon : SignedCommandPayloadCommon :=
  ⟨2000000000, 1, examplePubKeyA, 16, 271828, [1, 2, 3]⟩

/-- Sample payment body. -/
def examplePayment : PaymentPayload := ⟨examplePubKeyB, examplePubKeyC, 1, 1729⟩

/-- Sample payload with a payment body. -/
def examplePayload : SignedCommandPayload :=
  ⟨exampleCommon, SignedCommandPayloadBody.PaymentPayload examplePayment⟩

/-- Sample payload with a stake delegation body over the same keys. -/
def exampleDelegationPayload : SignedCommandPayload :=
  ⟨exampleCommon,
    SignedCommandPayloadBody.StakeDelegation
      (StakeDelegation.SetDelegate examplePubKeyB examplePubKeyC)⟩

/-- Sample keypair whose public key is examplePubKeyB. -/
def exampleKeypair : Keypair := ⟨99, examplePubKeyB⟩

/-! Helper lemmas shared by several proofs. -/

/-- Closed form of the canonical encoding of a payment payload. -/
theorem to_roinput_payment_items (common : SignedCommandPayloadCommon)
    (pp : PaymentPayload) :
    SignedCommandPayload.to_roinput
        ⟨common, SignedCommandPayloadBody.PaymentPayload pp⟩ =
      ⟨[ROItem.field common.fee_payer_pk.x, ROItem.field pp.source_pk.x,
        ROItem.field pp.receiver_pk.x, ROItem.u64 common.fee,
        ROItem.u64 common.fee_token, ROItem.bool common.fee_payer_pk.is_odd,
        ROItem.u32 common.nonce, ROItem.u32 common.valid_until,
        ROItem.bytes common.memo, ROItem.bool false, ROItem.bool false,
        ROItem.bool false, ROItem.bool pp.source_pk.is_odd,
        ROItem.bool pp.receiver_pk.is_odd, ROItem.u64 pp.token_id,
        ROItem.u64 pp.amount, ROItem.bool false]⟩ := by
  simp only [SignedCommandPayload.to_roinput, ROInput.new, ROInput.append_field,
    ROInput.append_u32, ROInput.append_u64, ROInput.append_bool,
    ROInput.append_bytes, PAYMENT_TX_TAG, List.foldl, List.nil_append,
    List.cons_append, List.singleton_append]

/-- Closed form of the canonical encoding of a stake delegation payload. -/
theorem to_roinput_delegation_items (common : SignedCommandPayloadCommon)
    (delegator new_delegate : CompressedPubKey) :
    SignedCommandPayload.to_roinput
        ⟨common, SignedCommandPayloadBody.StakeDelegation
          (StakeDelegation.SetDelegate delegator new_delegate)⟩ =
      ⟨[ROItem.field common.fee_payer_pk.x, ROItem.field delegator.x,
        ROItem.field new_delegate.x, ROItem.u64 common.fee,
        ROItem.u64 common.fee_token, ROItem.bool common.fee_payer_pk.is_odd,
        ROItem.u32 common.nonce, ROItem.u32 common.valid_until,
        ROItem.bytes common.memo, ROItem.bool false, ROItem.bool false,
        ROItem.bool true, ROItem.bool delegator.is_odd,
        ROItem.bool new_delegate.is_odd, ROItem.u64 1, ROItem.u64 0,
        ROItem.bool false]⟩ := by
  simp only [SignedCommandPayload.to_roinput, ROInput.new, ROInput.append_field,
    ROInput.append_u32, ROInput.append_u64, ROInput.append_bool,
    ROInput.append_bytes, DELEGATION_TX_TAG, List.foldl, List.nil_append,
    List.cons_append, List.singleton_append]

/-- Distinct networks have distinct domain strings. -/
theorem domain_string_inj (m n : NetworkId) (h : m ≠ n) :
    SignedCommandPayload.domain_string m ≠ SignedCommandPayload.domain_string n := by
  cases m <;> cases n <;> first
    | exact absurd rfl h
    | decide

/-- The canonical encoding is injective on payloads. -/
theorem to_roinput_inj (p q : SignedCommandPayload)
    (h : p.to_roinput = q.to_roinput) : p = q := by
  obtain ⟨⟨f1, ft1, ⟨px1, po1⟩, n1, v1, m1⟩, b1⟩ := p
  obtain ⟨⟨f2, ft2, ⟨px2, po2⟩, n2, v2, m2⟩, b2⟩ := q
  cases b1 with
  | PaymentPayload pp1 =>
      obtain ⟨⟨sx1, so1⟩, ⟨rx1, ro1⟩, t1, a1⟩ := pp1
      cases b2 with
      | PaymentPayload pp2 =>
          obtain ⟨⟨sx2, so2⟩, ⟨rx2, ro2⟩, t2, a2⟩ := pp2
          rw [to_roinput_payment_items, to_roinput_payment_items] at h
          simp only [ROInput.mk.injEq, List.cons.injEq, ROItem.field.injEq,
            ROItem.u64.injEq, ROItem.u32.injEq, ROItem.bool.injEq,
            ROItem.bytes.injEq, and_true] at h
          simp_all
      | StakeDelegation s2 =>
          obtain ⟨⟨dx2, dpar2⟩, ⟨ex2, epar2⟩⟩ := s2
          rw [to_roinput_payment_items, to_roinput_delegation_items] at h
          simp only [ROInput.mk.injEq, List.cons.injEq, ROItem.bool.injEq] at h
          simp_all
  | StakeDelegation s1 =>
      obtain ⟨⟨dx1, dpar1⟩, ⟨ex1, epar1⟩⟩ := s1
      cases b2 with
      | PaymentPayload pp2 =>
          obtain ⟨⟨sx2, so2⟩, ⟨rx2, ro2⟩, t2, a2⟩ := pp2
          rw [to_roinput_delegation_items, to_roinput_payment_items] at h
          simp only [ROInput.mk.injEq, List.cons.injEq, ROItem.bool.injEq] at h
          simp_all
      | StakeDelegation s2 =>
          obtain ⟨⟨dx2, dpar2⟩, ⟨ex2, epar2⟩⟩ := s2
          rw [to_roinput_delegation_items, to_roinput_delegation_items] at h
          simp only [ROInput.mk.injEq, List.cons.injEq, ROItem.field.injEq,
            ROItem.u64.injEq, ROItem.u32.injEq, ROItem.bool.injEq,
            ROItem.bytes.injEq, and_true] at h
          simp_all

/-! Claim theorems. -/

/-- Claim C1: for every payload whose body is a PaymentPayload, to_roinput
emits exactly this ordered sequence: field(common.fee_payer_pk.x),
field(source_pk.x), field(receiver_pk.x), u64(common.fee),
u64(common.fee_token), bool(common.fee_payer_pk.is_odd), u32(common.nonce),
u32(common.valid_until), bytes(common.memo), the three payment tag bits
false, false, false appended individually as bools, bool(source_pk.is_odd),
bool(receiver_pk.is_odd), u64(token_id), u64(amount), bool(false), in that
order with nothing else. -/
theorem payment_to_roinput_exact (common : SignedCommandPayloadCommon)
    (pp : PaymentPayload) :
    SignedCommandPayload.to_roinput
        ⟨common, SignedCommandPayloadBody.PaymentPayload pp⟩ =
      ⟨[ROItem.field common.fee_payer_pk.x, ROItem.field pp.source_pk.x,
        ROItem.field pp.receiver_pk.x, ROItem.u64 common.fee,
        ROItem.u64 common.fee_token, ROItem.bool common.fee_payer_pk.is_odd,
        ROItem.u32 common.nonce, ROItem.u32 common.valid_until,
        ROItem.bytes common.memo, ROItem.bool false, ROItem.bool false,
        ROItem.bool false, ROItem.bool pp.source_pk.is_odd,
        ROItem.bool pp.receiver_pk.is_odd, ROItem.u64 pp.token_id,
        ROItem.u64 pp.amount, ROItem.bool false]⟩ := by
  simp only [SignedCommandPayload.to_roinput, ROInput.new, ROInput.append_field,
    ROInput.append_u32, ROInput.append_u64, ROInput.append_bool,
    ROInput.append_bytes, PAYMENT_TX_TAG, List.foldl, List.nil_append,
    List.cons_append, List.singleton_append]

/-- Claim C2: for every payload whose body is StakeDelegation.SetDelegate,
to_roinput emits exactly: field(common.fee_payer_pk.x), field(delegator.x),
field(new_delegate.x), u64(common.fee), u64(common.fee_token),
bool(common.fee_payer_pk.is_odd), u32(common.nonce), u32(common.valid_until),
bytes(common.memo), the three delegation tag bits false, false, true,
bool(delegator.is_odd), bool(new_delegate.is_odd), then the fixed constants
u64(1), u64(0) and bool(false), in that order, independent of any payload
field. -/
theorem delegation_to_roinput_exact (common : SignedCommandPayloadCommon)
    (delegator new_delegate : CompressedPubKey) :
    SignedCommandPayload.to_roinput
        ⟨common, SignedCommandPayloadBody.StakeDelegation
          (StakeDelegation.SetDelegate delegator new_delegate)⟩ =
      ⟨[ROItem.field common.fee_payer_pk.x, ROItem.field delegator.x,
        ROItem.field new_delegate.x, ROItem.u64 common.fee,
        ROItem.u64 common.fee_token, ROItem.bool common.fee_payer_pk.is_odd,
        ROItem.u32 common.nonce, ROItem.u32 common.valid_until,
        ROItem.bytes common.memo, ROItem.bool false, ROItem.bool false,
        ROItem.bool true, ROItem.bool delegator.is_odd,
        ROItem.bool new_delegate.is_odd, ROItem.u64 1, ROItem.u64 0,
        ROItem.bool false]⟩ := by
  simp only [SignedCommandPayload.to_roinput, ROInput.new, ROInput.append_field,
    ROInput.append_u32, ROInput.append_u64, ROInput.append_bool,
    ROInput.append_bytes, DELEGATION_TX_TAG, List.foldl, List.nil_append,
    List.cons_append, List.singleton_append]

/-- Claim C3: domain_string is a pure lookup returning one fixed ASCII label
per network, and the Mainnet label differs from the Testnet label. -/
theorem domain_string_fixed_distinct_labels :
    SignedCommandPayload.domain_string NetworkId.MAINNET =
        some "MinaSignatureMainnet" ∧
    SignedCommandPayload.domain_string NetworkId.TESTNET =
        some "CodaSignature" ∧
    "MinaSignatureMainnet" ≠ "CodaSignature" ∧
    ("MinaSignatureMainnet".data.all fun c => decide (c.toNat < 128)) = true ∧
    ("CodaSignature".data.all fun c => decide (c.toNat < 128)) = true :=
  ⟨rfl, rfl, by decide, by decide, by decide⟩

/-- Claim C5: the canonical encoding is deterministic and depends only on
the payload fields: payloads with equal common and body fields encode to
identical ordered sequences, so two runs of the encoder on the same payload
yield the same sequence. -/
theorem to_roinput_deterministic (p q : SignedCommandPayload)
    (hcommon : p.common = q.common) (hbody : p.body = q.body) :
    p.to_roinput = q.to_roinput := by
  cases p; cases q
  cases hcommon; cases hbody
  rfl

/-- Witness for C5 at a concrete payload. -/
theorem to_roinput_deterministic_witness :
    SignedCommandPayload.to_roinput examplePayload =
      SignedCommandPayload.to_roinput examplePayload :=
  to_roinput_deterministic examplePayload examplePayload rfl rfl

/-- Claim C6: a payment payload and a stake delegation payload with
identical common fields and with the payment source equal to the delegator
and the payment receiver equal to the new delegate still encode to
different sequences, for every choice of token id and amount. -/
theorem payment_delegation_encodings_differ
    (common : SignedCommandPayloadCommon) (d nd : CompressedPubKey)
    (tid : TokenId) (amt : Amount) :
    SignedCommandPayload.to_roinput
        ⟨common, SignedCommandPayloadBody.PaymentPayload ⟨d, nd, tid, amt⟩⟩ ≠
      SignedCommandPayload.to_roinput
        ⟨common, SignedCommandPayloadBody.StakeDelegation
          (StakeDelegation.SetDelegate d nd)⟩ := by
  intro h
  rw [to_roinput_payment_items, to_roinput_delegation_items] at h
  simp only [ROInput.mk.injEq, List.cons.injEq, ROItem.bool.injEq] at h
  simp_all

/-- Witness for C6 at concrete keys and common fields. -/
theorem payment_delegation_encodings_differ_witness :
    SignedCommandPayload.to_roinput
        ⟨exampleCommon, SignedCommandPayloadBody.PaymentPayload
          ⟨examplePubKeyB, examplePubKeyC, 1, 1729⟩⟩ ≠
      SignedCommandPayload.to_roinput exampleDelegationPayload :=
  payment_delegation_encodings_differ exampleCommon examplePubKeyB
    examplePubKeyC 1 1729

/-- Claim C8: from_payload returns a SignedCommand whose payload equals the
given payload unchanged and whose signer equals the compressed public key of
the keypair. -/
theorem from_payload_fields (p : SignedCommandPayload) (kp : Keypair)
    (n : NetworkId) :
    (SignedCommand.from_payload p kp n).payload = p ∧
    (SignedCommand.from_payload p kp n).signer =
      PubKey.into_compressed kp.public :=
  ⟨rfl, rfl⟩

/-- Claim C9: the default ProtocolVersion is the fixed baseline triple with
major 2, minor 0, patch 0, and all three components are non-negative. -/
theorem protocol_version_default_baseline :
    (default : ProtocolVersion) = { major := 2, minor := 0, patch := 0 } ∧
    0 ≤ (default : ProtocolVersion).major ∧
    0 ≤ (default : ProtocolVersion).minor ∧
    0 ≤ (default : ProtocolVersion).patch :=
  ⟨rfl, Nat.zero_le _, Nat.zero_le _, Nat.zero_le _⟩

/-- Claim C10: domain_string returns Some for every NetworkId; the None
case is never produced. -/
theorem domain_string_always_some (n : NetworkId) :
    (SignedCommandPayload.domain_string n).isSome = true := by
  cases n <;> rfl

/-- Claim C4: verification is a total boolean function and every mismatch
yields false: verifying under the wrong network context, against a tampered
payload, with a tampered signature, or against a mismatched signer key all
return false rather than aborting. -/
theorem verify_mismatch_false (p : SignedCommandPayload) (kp : Keypair)
    (n n2 : NetworkId) (q : SignedCommandPayload) (s : Signature)
    (k : CompressedPubKey) (hn : n2 ≠ n) (hq : q ≠ p)
    (hs : s ≠ (SignedCommand.from_payload p kp n).signature)
    (hk : k ≠ PubKey.into_compressed kp.public) :
    (SignedCommand.from_payload p kp n).verify (create_legacy n2) = false ∧
    SignedCommand.verify ⟨q, PubKey.into_compressed kp.public,
      (SignedCommand.from_payload p kp n).signature⟩ (create_legacy n) = false ∧
    SignedCommand.verify ⟨p, PubKey.into_compressed kp.public, s⟩
      (create_legacy n) = false ∧
    SignedCommand.verify ⟨p, k,
      (SignedCommand.from_payload p kp n).signature⟩ (create_legacy n) = false := by
  simp only [SignedCommand.verify, SignedCommand.from_payload, create_legacy,
    Context.sign, Context.verify, address_roundtrip, PubKey.into_compressed,
    beq_iff_eq, beq_eq_false_iff_ne, ne_eq, Signature.mk.injEq, not_and,
    and_true, true_and]
  refine ⟨?_, ?_, ?_, ?_⟩
  · intro hd
    exact absurd hd (domain_string_inj n n2 (Ne.symm hn))
  · intro hroi
    exact absurd (to_roinput_inj p q hroi) (Ne.symm hq)
  · intro hcontra
    exact absurd hcontra hs
  · intro hkk
    exact absurd hkk.symm hk

/-- Witness for C4 at concrete inputs. -/
theorem verify_mismatch_false_witness :
    (SignedCommand.from_payload examplePayload exampleKeypair
        NetworkId.TESTNET).verify (create_legacy NetworkId.MAINNET) = false ∧
    SignedCommand.verify ⟨exampleDelegationPayload,
        PubKey.into_compressed exampleKeypair.public,
        (SignedCommand.from_payload examplePayload exampleKeypair
          NetworkId.TESTNET).signature⟩ (create_legacy NetworkId.TESTNET) = false ∧
    SignedCommand.verify ⟨examplePayload,
        PubKey.into_compressed exampleKeypair.public,
        ⟨none, ROInput.new, examplePubKeyA⟩⟩
      (create_legacy NetworkId.TESTNET) = false ∧
    SignedCommand.verify ⟨examplePayload, examplePubKeyA,
        (SignedCommand.from_payload examplePayload exampleKeypair
          NetworkId.TESTNET).signature⟩ (create_legacy NetworkId.TESTNET) = false :=
  verify_mismatch_false examplePayload exampleKeypair NetworkId.TESTNET
    NetworkId.MAINNET exampleDelegationPayload ⟨none, ROInput.new, examplePubKeyA⟩
    examplePubKeyA (by decide) (by decide) (by decide) (by decide)

/-- Claim C7: network separation: signing the same payload with the same
keypair under Mainnet and under Testnet yields different signatures, each
resulting command verifies true under its own network context and false
under the other. -/
theorem network_separation (p : SignedCommandPayload) (kp : Keypair) :
    (SignedCommand.from_payload p kp NetworkId.MAINNET).signature ≠
      (SignedCommand.from_payload p kp NetworkId.TESTNET).signature ∧
    (SignedCommand.from_payload p kp NetworkId.MAINNET).verify
      (create_legacy NetworkId.MAINNET) = true ∧
    (SignedCommand.from_payload p kp NetworkId.TESTNET).verify
      (create_legacy NetworkId.TESTNET) = true ∧
    (SignedCommand.from_payload p kp NetworkId.MAINNET).verify
      (create_legacy NetworkId.TESTNET) = false ∧
    (SignedCommand.from_payload p kp NetworkId.TESTNET).verify
      (create_legacy NetworkId.MAINNET) = false := by
  simp only [SignedCommand.verify, SignedCommand.from_payload, create_legacy,
    Context.sign, Context.verify, address_roundtrip, PubKey.into_compressed,
    beq_iff_eq, beq_eq_false_iff_ne, beq_self_eq_true, ne_eq,
    Signature.mk.injEq, not_and, and_true, true_and]
  refine ⟨?_, ?_, ?_⟩
  · intro hd
    exact absurd hd (domain_string_inj NetworkId.MAINNET NetworkId.TESTNET (by decide))
  · intro hd
    exact absurd hd (domain_string_inj NetworkId.MAINNET NetworkId.TESTNET (by decide))
  · intro hd
    exact absurd hd (domain_string_inj NetworkId.TESTNET NetworkId.MAINNET (by decide))

/-- Witness for C7 at a concrete payload and keypair. -/
theorem network_separation_witness :
    (SignedCommand.from_payload examplePayload exampleKeypair
        NetworkId.MAINNET).signature ≠
      (SignedCommand.from_payload examplePayload exampleKeypair
        NetworkId.TESTNET).signature ∧
    (SignedCommand.from_payload examplePayload exampleKeypair
        NetworkId.MAINNET).verify (create_legacy NetworkId.MAINNET) = true ∧
    (SignedCommand.from_payload examplePayload exampleKeypair
        NetworkId.TESTNET).verify (create_legacy NetworkId.TESTNET) = true ∧
    (SignedCommand.from_payload examplePayload exampleKeypair
        NetworkId.MAINNET).verify (create_legacy NetworkId.TESTNET) = false ∧
    (SignedCommand.from_payload examplePayload exampleKeypair
        NetworkId.TESTNET).verify (create_legacy NetworkId.MAINNET) = false :=
  network_separation examplePayload exampleKeypair

end MinaRs
